import Mathlib

/-!
Verification development for the cqlengine model layer
(src/cassandra/cqlengine/models.py).

The embedding below translates the model/metaclass code into Lean:
Python values become `Val` (`Option String`, with `none` playing the
role of Python `None`), Python dicts keyed by strings become ordered
association lists with Python dict semantics (insertion order kept,
later assignment to an existing key overwrites in place, `get` returns
the last-written binding), exceptions become `Except` results, and
in-place mutation becomes explicit state passing.  Where an exception
is raised after some mutation has already happened, the error value
carries the instance state at the moment of the raise, mirroring the
fact that a Python exception leaves prior attribute writes in place.
-/

/-- A Python-level value as it flows through the model layer: `none` is
Python `None`, `some s` an ordinary (stringly-encoded) value. -/
abbrev Val := Option String

/-- Python dict `get`: the binding written last wins, `none` when the key
is absent. -/
def pyLookup {β : Type} : List (String × β) → String → Option β
  | [], _ => none
  | (k, v) :: rest, q =>
    match pyLookup rest q with
    | some r => some r
    | none => if k = q then some v else none

/-- Python dict key membership test (`k in d`). -/
def pyMem {β : Type} (l : List (String × β)) (q : String) : Bool :=
  (pyLookup l q).isSome

/-- Python dict assignment `d[k] = v`: overwrite in place when the key
exists, append otherwise (insertion order is preserved). -/
def pyInsert {β : Type} (l : List (String × β)) (k : String) (v : β) : List (String × β) :=
  if (l.map Prod.fst).contains k then
    l.map (fun p => if p.1 = k then (k, v) else p)
  else
    l ++ [(k, v)]

/-- Python `dict(pairs)`: fold the pairs into an empty dict by
assignment, so duplicate keys keep their first position and last value. -/
def pyDict {β : Type} (l : List (String × β)) : List (String × β) :=
  l.foldl (fun acc p => pyInsert acc p.1 p.2) []

/-- Python truthiness of an optional string attribute: `None` and the
empty string are falsy. -/
def pyTruthy (v : Option String) : Bool :=
  match v with
  | none => false
  | some s => s ≠ ""

/-- Modelled from the spec: the Column Contract of section 6 and the
ColumnDefinition record of section 3.  The column class itself lives in
cassandra/cqlengine/columns.py, which is not part of the source set;
only the fields and operations the model layer consults are modelled.
`to_python_fn` and `validate_fn` stand for the `to_python` / `validate`
coercions of the contract; `primary_key` holds the resolved primary-key
attribute (a partition-key column carries `primary_key := true` as
well, which is what makes the partition/clustering split of the
metaclass meaningful). -/
structure Column where
  position : Nat
  primary_key : Bool := false
  partition_key : Bool := false
  clustering_order : Option String := none
  discriminator_column : Bool := false
  is_counter : Bool := false
  is_container : Bool := false
  db_field : Option String := none
  index : Bool := false
  can_delete : Bool := true
  has_default : Bool := false
  default_val : Val := none
  to_python_fn : Val → Val := id
  validate_fn : Val → Val := id

/-- The `is_primary_key` accessor of the column contract. -/
def Column.is_primary_key (c : Column) : Bool := c.primary_key

/-- The `db_field_name` accessor: the explicit `db_field` when given,
the attribute name the column was bound to otherwise. -/
def Column.db_field_name (name : String) (c : Column) : String :=
  c.db_field.getD name

/-- Modelled from the spec: the per-column per-instance value manager of
section 3 / 4.2 (class BaseValueManager of cassandra/cqlengine/columns.py,
not part of the source set).  It holds the current value, the previous
(last persisted/loaded) value, the explicitly-set flag and the
changed/dirty flag; the spec fixes the conservative behavior in which
every `setval` marks the manager changed. -/
structure ValueManager where
  previous_value : Val
  value : Val
  explicit : Bool
  changed : Bool
deriving DecidableEq

/-- Modelled from the spec: manager creation at instance init time; the
value was just loaded or defaulted, so nothing is dirty yet. -/
def ValueManager.create (v : Val) (expl : Bool) : ValueManager :=
  { previous_value := v, value := v, explicit := expl, changed := false }

/-- Modelled from the spec: `getval` returns the current value. -/
def ValueManager.getval (m : ValueManager) : Val := m.value

/-- Modelled from the spec: `setval` stores the value and marks the
manager changed (conservatively, on every assignment). -/
def ValueManager.setval (m : ValueManager) (v : Val) : ValueManager :=
  { m with value := v, changed := true }

/-- Modelled from the spec: `reset_previous_value` is called after a
successful persistence commit; it synchronizes previous to current and
clears the changed flag. -/
def ValueManager.reset_previous_value (m : ValueManager) : ValueManager :=
  { m with previous_value := m.value, changed := false }

/-- The per-instance state of BaseModel (models.py lines 359 to 376):
one value manager per column plus the persisted flag and the pending
ttl / timestamp / transaction / batch / timeout options.  `timeout :=
none` models the `connection.NOT_SET` sentinel and `batch := none`
models `self._batch is None`. -/
structure ModelInstance where
  vals : List (String × ValueManager)
  is_persisted : Bool := false
  ttl : Option Nat := none
  timestamp : Option Nat := none
  if_not_exists : Bool := false
  transaction : Option String := none
  batch : Option String := none
  timeout : Option Nat := none
deriving DecidableEq

/-- Attribute read through ColumnDescriptor.__get__ (models.py line
252): the `getval` of the value manager registered under the column
name. -/
def getattrV (inst : ModelInstance) (n : String) : Val :=
  match List.lookup n inst.vals with
  | some m => m.getval
  | none => none

/-- Update of the `_values` entry registered under a column name. -/
def updateVals (n : String) (v : Val) : List (String × ValueManager) → List (String × ValueManager)
  | [] => []
  | (k, m) :: rest =>
    if k = n then (k, m.setval v) :: updateVals n v rest
    else (k, m) :: updateVals n v rest

/-- Attribute write through ColumnDescriptor.__set__ (models.py line
265): `setval` on the value manager registered under the column name. -/
def setattrV (inst : ModelInstance) (n : String) (v : Val) : ModelInstance :=
  { inst with vals := updateVals n v inst.vals }

/-- BaseModel.__init__ (models.py lines 359 to 376): one value manager
per declared column, seeded from the supplied keyword values through
`to_python`, with the explicit flag recording whether the field name
was supplied at all. -/
def init_instance (dttl : Option Nat) (cols : List (String × Column)) (values : List (String × Val)) : ModelInstance :=
  { vals := cols.map (fun p =>
      let raw : Val := (pyLookup values p.1).join
      let v := p.2.to_python_fn raw
      (p.1, ValueManager.create v (pyMem values p.1)))
    is_persisted := false
    ttl := dttl
    timestamp := none
    transaction := none
    batch := none
    timeout := none }

/-- The slice of the resolved class attributes that the instance-level
methods of BaseModel consult: `_columns`, the `_primary_keys` names,
the polymorphism metadata and `__default_ttl__`. -/
structure ModelSchema where
  columns : List (String × Column)
  primary_keys : List String
  is_polymorphic : Bool := false
  is_polymorphic_base : Bool := false
  discriminator_column_name : Option String := none
  discriminator_value : Option String := none
  default_ttl : Option Nat := none

/-- BaseModel._can_update (models.py lines 458 to 468): true only for a
persisted instance none of whose primary-key value managers is marked
changed. -/
def Model.can_update (s : ModelSchema) (inst : ModelInstance) : Bool :=
  inst.is_persisted &&
    s.primary_keys.all (fun k =>
      match List.lookup k inst.vals with
      | some m => !m.changed
      | none => true)

/-- BaseModel.get_changed_columns (models.py lines 752 to 756). -/
def Model.get_changed_columns (inst : ModelInstance) : List String :=
  inst.vals.filterMap (fun p => if p.2.changed then some p.1 else none)

/-- BaseModel.validate (models.py lines 542 to 551): for every column,
substitute the default when the live value is None, was not explicitly
supplied and the column has a default; then write back the result of
the column validation through normal attribute assignment. -/
def Model.validate (cols : List (String × Column)) (inst : ModelInstance) : ModelInstance :=
  cols.foldl (fun i p =>
    let v := getattrV i p.1
    let expl : Bool :=
      match List.lookup p.1 i.vals with
      | some m => m.explicit
      | none => false
    let v := if (v == none) && !expl && p.2.has_default then p.2.default_val else v
    setattrV i p.1 (p.2.validate_fn v)) inst

/-- The polymorphic stamping step of save/update (models.py lines 671
and 721): a concrete polymorphic class writes its declared
discriminator value into the discriminator column. -/
def Model.stamp_discriminator (s : ModelSchema) (inst : ModelInstance) : ModelInstance :=
  if s.is_polymorphic then
    match s.discriminator_column_name with
    | some n => setattrV inst n s.discriminator_value
    | none => inst
  else inst

/-- The post-commit bookkeeping of save/update (models.py lines 683 to
689): reset every value manager, mark the instance persisted, revert
ttl to the class default and clear the pending timestamp. -/
def Model.reset_after_dml (s : ModelSchema) (inst : ModelInstance) : ModelInstance :=
  { inst with
    vals := inst.vals.map (fun p => (p.1, p.2.reset_previous_value))
    is_persisted := true
    ttl := s.default_ttl
    timestamp := none }

/-- The error raised by BaseModel.save. -/
inductive SaveError where
  | savePolymorphicBase
deriving DecidableEq

/-- BaseModel.save (models.py lines 654 to 691).  The external DML
executor is out of scope and modelled as succeeding; the second
component of the result is the validated instance state that is handed
to it, the first component is the state after the post-commit reset. -/
def Model.save (s : ModelSchema) (inst : ModelInstance) : Except SaveError (ModelInstance × ModelInstance) :=
  if s.is_polymorphic && s.is_polymorphic_base then
    .error .savePolymorphicBase
  else
    let stamped := Model.stamp_discriminator s inst
    let validated := Model.validate s.columns stamped
    .ok (Model.reset_after_dml s validated, validated)

/-- The errors raised by BaseModel.update: the two ValidationError
raises of the value loop (models.py lines 707 to 712) and the
PolymorphicModelException of line 719. -/
inductive UpdateError where
  | noSuchColumn (k : String)
  | primaryKeyUpdate (k : String)
  | updatePolymorphicBase
deriving DecidableEq

/-- The per-entry loop of BaseModel.update (models.py lines 703 to
714): each supplied pair is checked against the schema (unknown name,
then primary-key name) and applied through normal attribute assignment.
An error carries the instance state at the moment of the raise, since
the assignments already performed stay in place. -/
def Model.apply_update_values (cols : List (String × Column)) : List (String × Val) → ModelInstance → Except (UpdateError × ModelInstance) ModelInstance
  | [], inst => .ok inst
  | (k, v) :: rest, inst =>
    match List.lookup k cols with
    | none => .error (.noSuchColumn k, inst)
    | some col =>
      if col.is_primary_key then .error (.primaryKeyUpdate k, inst)
      else Model.apply_update_values cols rest (setattrV inst k v)

/-- BaseModel.update (models.py lines 693 to 740): apply the supplied
values, then the same polymorphic-stamp / validate / delegate / reset
sequence as save. -/
def Model.update (s : ModelSchema) (vs : List (String × Val)) (inst : ModelInstance) : Except (UpdateError × ModelInstance) (ModelInstance × ModelInstance) :=
  match Model.apply_update_values s.columns vs inst with
  | .error e => .error e
  | .ok inst1 =>
    if s.is_polymorphic && s.is_polymorphic_base then
      .error (.updatePolymorphicBase, inst1)
    else
      let stamped := Model.stamp_discriminator s inst1
      let validated := Model.validate s.columns stamped
      .ok (Model.reset_after_dml s validated, validated)

/-- The assertion failures of BaseModel.timeout and BaseModel._inst_batch. -/
inductive OptionUsageError where
  | batchAlreadySet
  | timeoutAlreadySet
deriving DecidableEq

/-- BaseModel.timeout (models.py lines 645 to 652): asserts that no
batch is associated before storing the timeout. -/
def Model.set_timeout (inst : ModelInstance) (t : Option Nat) : Except OptionUsageError ModelInstance :=
  if inst.batch ≠ none then .error .batchAlreadySet
  else .ok { inst with timeout := t }

/-- BaseModel._inst_batch (models.py lines 762 to 765): asserts that
the timeout is still the NOT_SET sentinel before storing the batch. -/
def Model.inst_batch (inst : ModelInstance) (b : Option String) : Except OptionUsageError ModelInstance :=
  if inst.timeout ≠ none then .error .timeoutAlreadySet
  else .ok { inst with batch := b }

/-!
The schema resolver: ModelMetaClass.__new__ (models.py lines 770 to
951).  The class-definition-time computation is embedded as a pure
function from the class attributes to either a structural error or the
resolved schema record.
-/
/-- The inputs of ModelMetaClass.__new__ that the schema resolution
consults: the class name, the abstract flag, the (inheritance
short-circuited) `__discriminator_value__`, the columns declared in the
class body (in body order, carrying their creation positions) and the
columns inherited from the base classes (already merged in ancestor
order with `setdefault`, first definition winning). -/
structure ClassAttrs where
  name : String
  is_abstract : Bool := false
  discriminator_value : Option String := none
  declared_columns : List (String × Column) := []
  inherited_columns : List (String × Column) := []

/-- The structural errors of schema resolution: every raise of
ModelMetaClass.__new__, in the distinct kinds the source uses
(ModelDefinitionException and ModelException). -/
inductive SchemaError where
  | multipleDiscriminators (count : Nat)
  | discriminatorValueWithoutColumn
  | counterContainerDiscriminator
  | missingPrimaryKey
  | counterWithDataColumns
  | reservedColumnName (k : String)
  | counterContainerKey (k : String)
  | missingPartitionKey
  | duplicateDbField (f : String)
  | badClusteringOrderPlacement (f : String)
  | badClusteringOrderValue (f : String)
deriving DecidableEq

/-- The primary-key shortcut accessor the metaclass installs under the
name `pk` (models.py lines 870 to 881): the single partition-key column
descriptor itself, or a tuple-valued property over the composite
partition key. -/
inductive PkShortcut where
  | scalar (n : String)
  | composite (ns : List String)
deriving DecidableEq

/-- The resolved schema the metaclass attaches to the class. -/
structure ResolvedSchema where
  column_dict : List (String × Column)
  primary_keys : List (String × Column)
  partition_keys : List (String × Column)
  clustering_keys : List (String × Column)
  defined_columns : List (String × Column)
  db_map : List (String × String)
  pk_shortcut : PkShortcut
  is_polymorphic : Bool
  is_polymorphic_base : Bool
  discriminator_column_name : Option String
  has_counter : Bool

/-- The attribute names defined on the BaseModel class body (models.py
lines 286 to 767).  A declared column whose name collides with one of
them is rejected (line 853). -/
def reserved_names : List String :=
  ["DoesNotExist", "MultipleObjectsReturned", "objects", "ttl", "consistency",
   "iff", "timestamp", "if_not_exists", "__table_name__", "__keyspace__",
   "__default_ttl__", "__polymorphic_key__", "__discriminator_value__",
   "__compaction__", "__compaction_tombstone_compaction_interval__",
   "__compaction_tombstone_threshold__", "__compaction_bucket_high__",
   "__compaction_bucket_low__", "__compaction_max_threshold__",
   "__compaction_min_threshold__", "__compaction_min_sstable_size__",
   "__compaction_sstable_size_in_mb__", "__queryset__", "__dmlquery__",
   "__consistency__", "__bloom_filter_fp_chance__", "__caching__",
   "__comment__", "__dclocal_read_repair_chance__", "__default_time_to_live__",
   "__gc_grace_seconds__", "__index_interval__",
   "__memtable_flush_period_in_ms__", "__populate_io_cache_on_flush__",
   "__read_repair_chance__", "__replicate_on_write__", "_timestamp",
   "_if_not_exists", "_table_name", "__init__", "__repr__", "__str__",
   "__setstate__", "_discover_polymorphic_submodels",
   "_get_model_by_discriminator_value", "_construct_instance", "_can_update",
   "_get_keyspace", "_get_column", "__eq__", "__ne__", "column_family_name",
   "_raw_column_family_name", "validate", "__iter__", "__getitem__",
   "__setitem__", "__len__", "keys", "values", "items", "_as_dict", "create",
   "all", "filter", "get", "timeout", "save", "update", "delete",
   "get_changed_columns", "_class_batch", "_inst_batch", "batch",
   "__module__", "__qualname__", "__doc__", "__dict__", "__weakref__"]

/-- Stable insertion of a named column into a position-sorted list:
used to model the stable `sorted(column_definitions, key=position)` of
models.py line 807. -/
def insertByPosition (x : String × Column) : List (String × Column) → List (String × Column)
  | [] => [x]
  | y :: ys =>
    if x.2.position ≤ y.2.position then x :: y :: ys
    else y :: insertByPosition x ys

/-- Stable sort of the declared columns by creation position
(models.py line 807). -/
def sortByPosition : List (String × Column) → List (String × Column)
  | [] => []
  | x :: xs => insertByPosition x (sortByPosition xs)

/-- The merged column definition list (models.py line 811): inherited
columns first, then the declared columns sorted by position. -/
def colDefs (a : ClassAttrs) : List (String × Column) :=
  a.inherited_columns ++ sortByPosition a.declared_columns

/-- The transform loop of ModelMetaClass.__new__ (models.py lines 851
to 865), threading the `has_partition_keys` flag and building the
`column_dict` and `primary_keys` ordered dicts by assignment: reserved
name check, counter/container key check, then promotion of the first
primary key to partition key when no explicit partition key exists. -/
def transform_columns : List (String × Column) → Bool → List (String × Column) → List (String × Column) → Except SchemaError (List (String × Column) × List (String × Column))
  | [], _, cdict, pks => .ok (cdict, pks)
  | (k, v) :: rest, hpk, cdict, pks =>
    if reserved_names.contains k then .error (.reservedColumnName k)
    else if (v.primary_key || v.partition_key) && (v.is_counter || v.is_container) then
      .error (.counterContainerKey k)
    else
      let v2 := if !hpk && v.primary_key then { v with partition_key := true } else v
      transform_columns rest (hpk || v.primary_key)
        (pyInsert cdict k v2)
        (if v2.primary_key then pyInsert pks k v2 else pks)

/-- The validation loop of ModelMetaClass.__new__ (models.py lines 883
to 893), walked in `column_dict` order with the set of database field
names seen so far: duplicate database field names, clustering order on
anything but a clustering primary key, and clustering order values
other than asc/desc (case-insensitive) are structural errors. -/
def validate_columns : List (String × Column) → List String → Except SchemaError Unit
  | [], _ => .ok ()
  | (k, v) :: rest, seen =>
    let dbf := v.db_field_name k
    if seen.contains dbf then .error (.duplicateDbField dbf)
    else if (v.clustering_order).isSome && !(v.primary_key && !v.partition_key) then
      .error (.badClusteringOrderPlacement dbf)
    else if (match v.clustering_order with
             | some o => !(o.toLower == "asc" || o.toLower == "desc")
             | none => false) then
      .error (.badClusteringOrderValue dbf)
    else validate_columns rest (dbf :: seen)

/-- ModelMetaClass.__new__ (models.py lines 772 to 951), as the pure
schema-resolution function: the raises become errors in source order,
and the record collects the management attributes the metaclass
attaches to the class. -/
def resolve_schema (a : ClassAttrs) : Except SchemaError ResolvedSchema :=
  let declared := sortByPosition a.declared_columns
  let is_polymorphic_base := declared.any (fun p => p.2.discriminator_column)
  let column_definitions := a.inherited_columns ++ declared
  let discriminator_columns := column_definitions.filter (fun p => p.2.discriminator_column)
  let is_polymorphic := discriminator_columns.length > 0
  if discriminator_columns.length > 1 then
    .error (.multipleDiscriminators discriminator_columns.length)
  else if pyTruthy a.discriminator_value && !is_polymorphic then
    .error .discriminatorValueWithoutColumn
  else if (discriminator_columns.head?.elim false (fun p => p.2.is_counter || p.2.is_container)) then
    .error .counterContainerDiscriminator
  else
    let defined_columns := pyDict column_definitions
    if !a.is_abstract && !(column_definitions.any (fun p => p.2.primary_key)) then
      .error .missingPrimaryKey
    else
      let counter_columns := (defined_columns.map Prod.snd).filter (fun c => c.is_counter)
      let data_columns := (defined_columns.map Prod.snd).filter (fun c => !c.primary_key && !c.is_counter)
      if !counter_columns.isEmpty && !data_columns.isEmpty then
        .error .counterWithDataColumns
      else
        let has_partition_keys := column_definitions.any (fun p => p.2.partition_key)
        match transform_columns column_definitions has_partition_keys [] [] with
        | .error e => .error e
        | .ok (column_dict, primary_keys) =>
          let partition_keys := primary_keys.filter (fun p => p.2.partition_key)
          let clustering_keys := primary_keys.filter (fun p => !p.2.partition_key)
          if partition_keys.length = 0 && !a.is_abstract then
            .error .missingPartitionKey
          else
            let shortcut :=
              if h : partition_keys.length = 1 then
                PkShortcut.scalar (partition_keys.head (by
                  intro hnil
                  rw [hnil] at h
                  exact absurd h (by decide))).1
              else
                PkShortcut.composite (partition_keys.map Prod.fst)
            match validate_columns column_dict [] with
            | .error e => .error e
            | .ok _ =>
              .ok { column_dict := column_dict
                    primary_keys := primary_keys
                    partition_keys := partition_keys
                    clustering_keys := clustering_keys
                    defined_columns := defined_columns
                    db_map := column_dict.foldl (fun m p => pyInsert m (p.2.db_field_name p.1) p.1) []
                    pk_shortcut := shortcut
                    is_polymorphic := is_polymorphic
                    is_polymorphic_base := is_polymorphic_base
                    discriminator_column_name := discriminator_columns.head?.map Prod.fst
                    has_counter := !counter_columns.isEmpty }

/-!
Table-name derivation: BaseModel._raw_column_family_name (models.py
lines 521 to 540).
-/
/-- The camel-case regex substitution of models.py line 530/531: every
non-overlapping occurrence of an ASCII lowercase letter directly
followed by an ASCII uppercase letter is rewritten to the lowercase
letter, an underscore, and the lowered uppercase letter; scanning
resumes after the consumed pair. -/
def ccase_chars : List Char → List Char
  | [] => []
  | [c] => [c]
  | c1 :: c2 :: rest =>
    if c1.isLower && c2.isUpper then
      c1 :: '_' :: c2.toLower :: ccase_chars rest
    else
      c1 :: ccase_chars (c2 :: rest)

/-- Python str.lower() restricted to ASCII, which is the alphabet of
class and table names here. -/
def asciiLower (s : String) : String := ⟨s.data.map Char.toLower⟩

/-- Python re.sub applied to strip the leading underscores (models.py
line 537). -/
def dropLeadingUnderscores : List Char → List Char
  | '_' :: rest => dropLeadingUnderscores rest
  | l => l

/-- The derived table name of a non-polymorphic class without an
explicit override (models.py lines 530 to 538): camel-case conversion,
the Python slice `[-48:]` keeping the last 48 characters, lowercasing,
then stripping leading underscores. -/
def derived_table_name (className : String) : String :=
  let cf1 := ccase_chars className.data
  let cf2 := cf1.drop (cf1.length - 48)
  let cf3 := cf2.map Char.toLower
  ⟨dropLeadingUnderscores cf3⟩

/-- BaseModel._raw_column_family_name (models.py lines 521 to 540),
without the memoization in `_table_name`.  The polymorphic-base
argument carries, for a concrete polymorphic subclass, the override and
class name of its polymorphic base, whose own raw name is inherited
verbatim. -/
def raw_column_family_name (tableNameOverride : Option String) (polyBase : Option (Option String × String)) (className : String) : String :=
  match tableNameOverride with
  | some t => asciiLower t
  | none =>
    match polyBase with
    | some (bOverride, bName) =>
      match bOverride with
      | some t => asciiLower t
      | none => derived_table_name bName
    | none => derived_table_name className

/-- Formalisation of the specification sentence on derived table names,
reading `truncated to 48 characters` in its usual sense of keeping the
first 48 characters of the converted name. -/
def spec_table_name (className : String) : String :=
  let cf1 := ccase_chars className.data
  let cf2 := cf1.take 48
  let cf3 := cf2.map Char.toLower
  ⟨dropLeadingUnderscores cf3⟩

/-- Amended reading of the same sentence: the truncation keeps the last
48 characters of the converted name (built here from the reversed list,
independently of the `drop` used in the embedding of the source). -/
def spec_table_name_tail (className : String) : String :=
  let cf1 := ccase_chars className.data
  let cf2 := (cf1.reverse.take 48).reverse
  let cf3 := cf2.map Char.toLower
  ⟨dropLeadingUnderscores cf3⟩

/-!
The primary-key shortcut accessor (models.py lines 870 to 881).
-/
/-- A value read or written through the `pk` shortcut: a plain scalar
for a single partition key, a tuple for a composite one. -/
inductive PkValue where
  | single (v : Val)
  | tuple (vs : List Val)
deriving DecidableEq

/-- Reading the `pk` shortcut: the single column descriptor read, or
the tuple-valued property `_get` of models.py line 879, which collects
`getval` of every partition-key column in declaration order. -/
def pk_get (p : PkShortcut) (inst : ModelInstance) : PkValue :=
  match p with
  | .scalar n => .single (getattrV inst n)
  | .composite ns => .tuple (ns.map (getattrV inst))

/-- Writing the `pk` shortcut: the single column descriptor write, or
the tuple-valued property `_set` of models.py line 880, which zips the
partition-key names with the assigned tuple and runs `setval` for each
pair in order.  A shape-mismatched assignment (scalar where the model
has a composite key, or conversely) is outside the embedded value
universe and leaves the instance as is. -/
def pk_set (p : PkShortcut) (inst : ModelInstance) (v : PkValue) : ModelInstance :=
  match p, v with
  | .scalar n, .single x => setattrV inst n x
  | .composite ns, .tuple xs =>
    (ns.zip xs).foldl (fun i q => setattrV i q.1 q.2) inst
  | _, _ => inst

/-!
The polymorphic resolver: _discover_polymorphic_submodels,
_get_model_by_discriminator_value and _construct_instance (models.py
lines 397 to 456).  The live Python class graph is embedded as an
explicit finite tree of class records.
-/
/-- The class-level attributes of one model class that the polymorphic
resolver consults. -/
structure PolyClass where
  cname : String
  is_base : Bool := false
  is_polymorphic : Bool := true
  disc_value : Option String := none
  discriminator_column_name : Option String := none
  columns : List (String × Column) := []
  db_map : List (String × String) := []
  default_ttl : Option Nat := none

mutual

/-- A node of the live subclass graph: a class and its direct
subclasses, in definition order. -/
inductive Hier where
  | node (k : PolyClass) (subs : HierList)

/-- The direct subclass list of a node. -/
inductive HierList where
  | hnil
  | hcons (h : Hier) (t : HierList)

end

mutual

/-- BaseModel._discover_polymorphic_submodels (models.py lines 397 to
407): the depth-first pre-order walk of the subclass graph, listing the
registrations `discriminator value maps to class` it performs; a class
registers itself when it is not a polymorphic base and declares a
discriminator value.  Later registrations overwrite earlier ones, which
`pyLookup` reproduces. -/
def discover : Hier → List (String × PolyClass)
  | .node k subs =>
    (match k.is_base, k.disc_value with
     | false, some d => [(d, k)]
     | _, _ => []) ++ discoverList subs

/-- The recursive walk of `discover` over a subclass list. -/
def discoverList : HierList → List (String × PolyClass)
  | .hnil => []
  | .hcons h t => discover h ++ discoverList t

end

mutual

/-- Locate the subtree rooted at the class with the given name. -/
def hierFind : Hier → String → Option Hier
  | .node k subs, q =>
    if k.cname = q then some (.node k subs) else hierFindList subs q

/-- The walk of `hierFind` over a subclass list. -/
def hierFindList : HierList → String → Option Hier
  | .hnil, _ => none
  | .hcons h t, q =>
    match hierFind h q with
    | some r => some r
    | none => hierFindList t q

end

mutual

/-- Membership of a class name in a subtree. -/
def hierContains : Hier → String → Bool
  | .node k subs, q => k.cname = q || hierContainsList subs q

/-- The walk of `hierContains` over a subclass list. -/
def hierContainsList : HierList → String → Bool
  | .hnil, _ => false
  | .hcons h t, q => hierContains h q || hierContainsList t q

end

/-- Python `issubclass(sub, sup)` over the embedded class graph rooted
at `root`: `sub` lies in the subtree rooted at `sup` (non-strictly). -/
def hierIsSubclass (root : Hier) (sub sup : String) : Bool :=
  match hierFind root sup with
  | some h => hierContains h sub
  | none => false

/-- The PolymorphicModelException raises of the polymorphic resolver
(models.py lines 430, 439 and 444). -/
inductive PolyError where
  | missingDiscriminatorValue
  | unrecognizedDiscriminator (v : String)
  | notASubclass (sub sup : String)
deriving DecidableEq

/-- BaseModel._construct_instance (models.py lines 415 to 456).  `root`
is the subclass graph rooted at the polymorphic base of `cls` (or at
`cls` itself when it is the base): the source reaches it through
`cls._polymorphic_base` and the live class graph.  `cache` is the
pre-existing `_discriminator_map` of that base; a miss triggers the
discovery walk, whose registrations overwrite the cache, and a second
miss is fatal.  The resolved class must be a non-strict subclass of the
class the query ran against, the raw values are filtered to the columns
the resolved class declares, and the result is marked persisted. -/
def construct_instance (root : Hier) (cls : PolyClass) (cache : List (String × PolyClass)) (values : List (String × Val)) : Except PolyError (String × ModelInstance) :=
  let field_dict := pyDict (values.map (fun p => ((pyLookup cls.db_map p.1).getD p.1, p.2)))
  if cls.is_polymorphic then
    let disc_key : Val :=
      match cls.discriminator_column_name with
      | some n => (pyLookup field_dict n).join
      | none => none
    match disc_key with
    | none => .error .missingDiscriminatorValue
    | some d =>
      let klassOpt :=
        match pyLookup cache d with
        | some k => some k
        | none => pyLookup (cache ++ discover root) d
      match klassOpt with
      | none => .error (.unrecognizedDiscriminator d)
      | some klass =>
        if !(hierIsSubclass root klass.cname cls.cname) then
          .error (.notASubclass klass.cname cls.cname)
        else
          let filtered := field_dict.filter (fun p => pyMem klass.columns p.1)
          .ok (klass.cname, { init_instance klass.default_ttl klass.columns filtered with is_persisted := true })
  else
    .ok (cls.cname, { init_instance cls.default_ttl cls.columns field_dict with is_persisted := true })

/-!
The per-class exception types (models.py lines 922 to 939).
-/
/-- The exception class universe the metaclass manipulates: the two
roots imported from cassandra.cqlengine.query, and classes created by
`type(name, (parent,), ...)`. -/
inductive ExcType where
  | queryDoesNotExist
  | queryMultipleObjectsReturned
  | derived (tag : String) (parent : ExcType)
deriving DecidableEq

/-- BaseModel.DoesNotExist (models.py line 291). -/
def baseModelDoesNotExist : ExcType :=
  .derived "BaseModel.DoesNotExist" .queryDoesNotExist

/-- BaseModel.MultipleObjectsReturned (models.py line 294). -/
def baseModelMultipleObjectsReturned : ExcType :=
  .derived "BaseModel.MultipleObjectsReturned" .queryMultipleObjectsReturned

/-- Python issubclass over the embedded exception classes: reflexive,
then up the single-parent chain. -/
def ExcType.isSubclassOf : ExcType → ExcType → Bool
  | .derived tag p, t =>
    (if ExcType.derived tag p = t then true else p.isSubclassOf t)
  | e, t => e = t

/-- The base-class attribute pair the exception-setup loops read with
getattr (models.py lines 924 and 933). -/
structure BaseExcInfo where
  doesNotExist : Option ExcType
  multipleObjectsReturned : Option ExcType

/-- The base-class scan of models.py lines 923 to 927 and 932 to 936:
each iteration assigns, the loop breaks at the first base exposing the
attribute; with no such base the result is the final None. -/
def firstSome {α : Type} : List (Option α) → Option α
  | [] => none
  | some a :: _ => some a
  | none :: rest => firstSome rest

/-- The exception setup of ModelMetaClass.__new__ (models.py lines 922
to 939), returning the per-class DoesNotExist and MultipleObjectsReturned
types.  Line 929 falls back to the attrs entry and then to
BaseModel.DoesNotExist, so `DoesNotExistBase` is always bound to a
class object afterwards; line 938 reads `DoesNotExistBase or ...`, and
a class object is truthy, so the `or` short-circuits: the value scanned
from the bases at lines 932 to 936 and the attrs fallback for
MultipleObjectsReturned are both discarded, and the per-class
MultipleObjectsReturned is derived from `DoesNotExistBase`. -/
def resolve_exc_types (bases : List BaseExcInfo) (attrDNE attrMOR : Option ExcType) : ExcType × ExcType :=
  let dneFromBases := firstSome (bases.map (fun b => b.doesNotExist))
  let dneBase :=
    match dneFromBases with
    | some b => b
    | none =>
      match attrDNE with
      | some b => b
      | none => baseModelDoesNotExist
  let dne := ExcType.derived "DoesNotExist" dneBase
  let _morFromBases := firstSome (bases.map (fun b => b.multipleObjectsReturned))
  let _morAttr := attrMOR
  let morBase := dneBase
  let mor := ExcType.derived "MultipleObjectsReturned" morBase
  (dne, mor)

/-!
Shared fixtures: a small non-polymorphic model with one partition key
and two data columns.
-/
def colId : Column := { position := 1, primary_key := true, partition_key := true }

def colA : Column := { position := 2 }

def colB : Column := { position := 3 }

def sampleSchema : ModelSchema :=
  { columns := [("id", colId), ("a", colA), ("b", colB)], primary_keys := ["id"] }

def sampleInst : ModelInstance := init_instance none sampleSchema.columns [("id", some "1")]

/-- Columns used by the C9 witness. -/
def colDisc1 : Column := { position := 2, discriminator_column := true }

def colDisc2 : Column := { position := 3, discriminator_column := true }

/-- A class body declaring two discriminator columns. -/
def twoDiscAttrs : ClassAttrs :=
  { name := "TwoDisc",
    declared_columns := [("id", colId), ("t1", colDisc1), ("t2", colDisc2)] }

/-- The discriminator column of the polymorphic fixtures. -/
def colType : Column := { position := 2, discriminator_column := true, index := true }

/-- The polymorphic concrete-class schema used as C5 witness: primary
key, discriminator column and one data column, discriminator value b. -/
def polyC2Schema : ModelSchema :=
  { columns := [("id", colId), ("type", colType), ("data", colB)],
    primary_keys := ["id"],
    is_polymorphic := true,
    is_polymorphic_base := false,
    discriminator_column_name := some "type",
    discriminator_value := some "b" }

/-- The matching polymorphic-base schema. -/
def polyBaseSchema : ModelSchema :=
  { polyC2Schema with is_polymorphic_base := true, discriminator_value := none }

/-- An instance of the concrete polymorphic class. -/
def polyC2Inst : ModelInstance := init_instance none polyC2Schema.columns [("id", some "1")]

/-!
Claim C3: the polymorphic fixtures B, C1 (discriminator value a) and
C2 (discriminator value b).
-/
/-- The column set of the polymorphic base B. -/
def bColumns : List (String × Column) := [("id", colId), ("type", colType), ("data", colB)]

/-- The polymorphic base class B. -/
def exB : PolyClass :=
  { cname := "B", is_base := true, is_polymorphic := true, disc_value := none,
    discriminator_column_name := some "type", columns := bColumns }

/-- The concrete subclass C1 with discriminator value a. -/
def exC1 : PolyClass :=
  { exB with cname := "C1", is_base := false, disc_value := some "a" }

/-- The concrete subclass C2 with discriminator value b and one extra
column of its own. -/
def colExtra : Column := { position := 4 }

def exC2 : PolyClass :=
  { exB with
    cname := "C2"
    is_base := false
    disc_value := some "b"
    columns := bColumns ++ [("extra", colExtra)] }

/-- The live subclass graph rooted at B. -/
def exHier : Hier :=
  .node exB (.hcons (.node exC1 .hnil) (.hcons (.node exC2 .hnil) .hnil))

/-!
Claim C1.
-/
/-- The instance state after the one valid assignment that the failing
update call of the C1 counterexample performs before raising. -/
def cexMutatedInst : ModelInstance := setattrV sampleInst "a" (some "x")

/-- The error the update loop raises for an offending key: the unknown
column ValidationError of models.py line 708 when the schema has no
such column, the primary-key ValidationError of line 712 otherwise. -/
def update_loop_error (cols : List (String × Column)) (k : String) : UpdateError :=
  match List.lookup k cols with
  | none => .noSuchColumn k
  | some _ => .primaryKeyUpdate k

/-!
Claim C7.
-/
/-- A class name whose camel-case conversion is 49 characters long: one
uppercase B followed by 48 times a. -/
def longClassName : String := "Baaaaaaaaaaaaaaaaaaaaaaaaaaaaaaaaaaaaaaaaaaaaaaaa"

/-- The validated instance state the C2 witness save submits. -/
def savedSampleSub : ModelInstance := Model.validate sampleSchema.columns sampleInst

/-- The post-save state of the C2 witness. -/
def savedSample : ModelInstance := Model.reset_after_dml sampleSchema savedSampleSub

/-- Columns of the C4 witness: three primary keys, none explicitly a
partition key. -/
def colK1 : Column := { position := 1, primary_key := true }

def colK2 : Column := { position := 2, primary_key := true }

def colK3 : Column := { position := 3, primary_key := true }

/-- The C4 witness class body. -/
def threePkAttrs : ClassAttrs :=
  { name := "ThreePk", declared_columns := [("k1", colK1), ("k2", colK2), ("k3", colK3)] }

/-- A placeholder schema for extracting the ok payload of a
resolution. -/
def fallbackSchema : ResolvedSchema :=
  { column_dict := [], primary_keys := [], partition_keys := [], clustering_keys := [],
    defined_columns := [], db_map := [], pk_shortcut := .composite [],
    is_polymorphic := false, is_polymorphic_base := false,
    discriminator_column_name := none, has_counter := false }

/-- The resolved schema of the C4 witness class. -/
def threePkSchema : ResolvedSchema := (resolve_schema threePkAttrs).toOption.getD fallbackSchema

/-- The columns of the C6 witness: a composite partition key of two
fields and one data column. -/
def colP1 : Column := { position := 1, primary_key := true, partition_key := true }

def colP2 : Column := { position := 2, primary_key := true, partition_key := true }

def colV : Column := { position := 3 }

/-- The C6 witness class body. -/
def twoPartAttrs : ClassAttrs :=
  { name := "TwoPart", declared_columns := [("p1", colP1), ("p2", colP2), ("v", colV)] }

/-- The resolved schema of the C6 witness class. -/
def twoPartSchema : ResolvedSchema := (resolve_schema twoPartAttrs).toOption.getD fallbackSchema

/-- An instance of the C6 witness class. -/
def twoPartInst : ModelInstance :=
  init_instance none [("p1", colP1), ("p2", colP2), ("v", colV)] []

/-!
Helper lemmas about association-list lookup and the instance
operations.
-/
theorem lookup_map_snd {β γ : Type} (f : β → γ) (l : List (String × β)) (k : String) :
    List.lookup k (l.map (fun p => (p.1, f p.2))) = (List.lookup k l).map f := by
  induction l with
  | nil => rfl
  | cons hd tl ih =>
    obtain ⟨a, b⟩ := hd
    cases hka : k == a <;> simp [List.lookup, hka, ih]

theorem lookup_updateVals_same (l : List (String × ValueManager)) (n : String) (v : Val) :
    List.lookup n (updateVals n v l) = (List.lookup n l).map (fun m => m.setval v) := by
  induction l with
  | nil => rfl
  | cons hd tl ih =>
    obtain ⟨a, b⟩ := hd
    by_cases han : a = n
    · subst han
      simp [updateVals, List.lookup]
    · have hne : (n == a) = false := beq_eq_false_iff_ne.mpr (fun hc => han hc.symm)
      simp [updateVals, han, List.lookup, hne, ih]

theorem lookup_updateVals_ne (l : List (String × ValueManager)) (n k : String) (v : Val) (h : k ≠ n) :
    List.lookup k (updateVals n v l) = List.lookup k l := by
  induction l with
  | nil => rfl
  | cons hd tl ih =>
    obtain ⟨a, b⟩ := hd
    by_cases han : a = n
    · subst han
      have hne : (k == a) = false := beq_eq_false_iff_ne.mpr h
      simp [updateVals, List.lookup, hne, ih]
    · cases hkb : k == a <;> simp [updateVals, han, List.lookup, hkb, ih]

theorem lookup_setattrV_same (i : ModelInstance) (n : String) (v : Val) :
    List.lookup n (setattrV i n v).vals = (List.lookup n i.vals).map (fun m => m.setval v) :=
  lookup_updateVals_same i.vals n v

theorem lookup_setattrV_ne (i : ModelInstance) (n k : String) (v : Val) (h : k ≠ n) :
    List.lookup k (setattrV i n v).vals = List.lookup k i.vals :=
  lookup_updateVals_ne i.vals n k v h

theorem getattrV_setattrV_same (i : ModelInstance) (n : String) (v : Val)
    (h : (List.lookup n i.vals).isSome = true) :
    getattrV (setattrV i n v) n = v := by
  unfold getattrV
  rw [lookup_setattrV_same]
  cases hl : List.lookup n i.vals with
  | none => rw [hl] at h; exact absurd h (by simp)
  | some m => simp [ValueManager.setval, ValueManager.getval]

theorem getattrV_setattrV_ne (i : ModelInstance) (n k : String) (v : Val) (h : k ≠ n) :
    getattrV (setattrV i n v) k = getattrV i k := by
  unfold getattrV
  rw [lookup_setattrV_ne i n k v h]

theorem isSome_lookup_setattrV (i : ModelInstance) (n k : String) (v : Val) :
    (List.lookup k (setattrV i n v).vals).isSome = (List.lookup k i.vals).isSome := by
  by_cases h : k = n
  · subst h
    rw [lookup_setattrV_same]
    cases List.lookup k i.vals <;> rfl
  · rw [lookup_setattrV_ne i n k v h]

theorem setattrV_is_persisted (i : ModelInstance) (n : String) (v : Val) :
    (setattrV i n v).is_persisted = i.is_persisted := rfl

/-!
Claim C8.
-/
/-- Claim C8: associating a batch while a timeout is already set, or
setting a timeout while a batch is already associated, fails eagerly at
the moment of the second setting with a usage error (the assertion of
models.py lines 650 and 763); either option alone is accepted. -/
theorem batch_timeout_mutual_exclusion (inst : ModelInstance) (t : Option Nat) (b : Option String) (n : Nat) (x : String) :
    (inst.batch = none → Model.set_timeout inst t = .ok { inst with timeout := t })
  ∧ (inst.timeout = none → Model.inst_batch inst b = .ok { inst with batch := b })
  ∧ (∀ i1, inst.batch = none → Model.set_timeout inst (some n) = .ok i1 →
        Model.inst_batch i1 b = .error .timeoutAlreadySet)
  ∧ (∀ i2, inst.timeout = none → Model.inst_batch inst (some x) = .ok i2 →
        Model.set_timeout i2 t = .error .batchAlreadySet) := by
  refine ⟨?_, ?_, ?_, ?_⟩
  · intro h
    simp [Model.set_timeout, h]
  · intro h
    simp [Model.inst_batch, h]
  · intro i1 hb hset
    simp [Model.set_timeout, hb] at hset
    simp [Model.inst_batch, ← hset]
  · intro i2 ht hbat
    simp [Model.inst_batch, ht] at hbat
    simp [Model.set_timeout, ← hbat]

/-- Witness for C8 on a concrete fresh instance. -/
theorem batch_timeout_mutual_exclusion_witness :
    sampleInst.batch = none
  ∧ Model.set_timeout sampleInst (some 5) = .ok { sampleInst with timeout := some 5 }
  ∧ Model.inst_batch { sampleInst with timeout := some 5 } (some "bt") = .error .timeoutAlreadySet := by
  have h := batch_timeout_mutual_exclusion sampleInst (some 5) (some "bt") 5 "bt"
  refine ⟨rfl, h.1 rfl, h.2.2.1 _ rfl (h.1 rfl)⟩

/-!
Claim C10.
-/
/-- Claim C10: the per-class MultipleObjectsReturned type is created as
a subclass of the resolved DoesNotExist base (line 938 reads
`DoesNotExistBase or ...`, which always short-circuits), never of the
base MultipleObjectsReturned type; hence catching the base
MultipleObjectsReturned does not catch the per-class one, while
catching the base DoesNotExist does. -/
theorem multiple_objects_returned_derived_from_does_not_exist :
    (∀ (bases : List BaseExcInfo) (aD aM : Option ExcType), ∃ p,
        (resolve_exc_types bases aD aM).1 = .derived "DoesNotExist" p
      ∧ (resolve_exc_types bases aD aM).2 = .derived "MultipleObjectsReturned" p)
  ∧ ((resolve_exc_types [⟨some baseModelDoesNotExist, some baseModelMultipleObjectsReturned⟩] none none).2.isSubclassOf baseModelMultipleObjectsReturned = false
   ∧ (resolve_exc_types [⟨some baseModelDoesNotExist, some baseModelMultipleObjectsReturned⟩] none none).2.isSubclassOf ExcType.queryMultipleObjectsReturned = false
   ∧ (resolve_exc_types [⟨some baseModelDoesNotExist, some baseModelMultipleObjectsReturned⟩] none none).2.isSubclassOf baseModelDoesNotExist = true
   ∧ (resolve_exc_types [⟨some baseModelDoesNotExist, some baseModelMultipleObjectsReturned⟩] none none).2.isSubclassOf ExcType.queryDoesNotExist = true
   ∧ (resolve_exc_types [⟨some baseModelDoesNotExist, some baseModelMultipleObjectsReturned⟩] none none).1.isSubclassOf baseModelDoesNotExist = true) := by
  constructor
  · intro bases aD aM
    exact ⟨_, rfl, rfl⟩
  · exact ⟨by decide, by decide, by decide, by decide, by decide⟩

/-!
Claim C9.
-/
/-- Claim C9: a model class whose merged column set (inherited plus
locally declared) contains two or more discriminator columns fails
schema resolution at class-definition time with the
ModelDefinitionException of models.py line 815, and no schema record is
produced. -/
theorem multiple_discriminator_columns_rejected (a : ClassAttrs)
    (h : 2 ≤ ((colDefs a).filter (fun p => p.2.discriminator_column)).length) :
    resolve_schema a =
      .error (.multipleDiscriminators ((colDefs a).filter (fun p => p.2.discriminator_column)).length) := by
  have h2 : ((colDefs a).filter (fun p => p.2.discriminator_column)).length > 1 :=
    Nat.lt_of_lt_of_le Nat.one_lt_two h
  simp only [resolve_schema, colDefs] at *
  rw [if_pos h2]

/-- Witness for C9 at a concrete class definition. -/
theorem multiple_discriminator_columns_rejected_witness :
    2 ≤ ((colDefs twoDiscAttrs).filter (fun p => p.2.discriminator_column)).length
  ∧ resolve_schema twoDiscAttrs =
      .error (.multipleDiscriminators ((colDefs twoDiscAttrs).filter (fun p => p.2.discriminator_column)).length) :=
  ⟨by decide, multiple_discriminator_columns_rejected twoDiscAttrs (by decide)⟩

/-!
Claim C5.
-/
/-- Claim C5: saving an instance whose class is the polymorphic base
fails with the PolymorphicModelException of models.py line 669; on a
concrete polymorphic subclass, save first writes the declared
discriminator value into the discriminator column (models.py line 671)
and only then validates and delegates: the whole call factors through
the stamped instance, whose discriminator column already holds the
declared value. -/
theorem save_polymorphic_discipline (s : ModelSchema) (inst : ModelInstance) :
    (s.is_polymorphic = true → s.is_polymorphic_base = true →
        Model.save s inst = .error .savePolymorphicBase)
  ∧ (∀ n, s.is_polymorphic = true → s.is_polymorphic_base = false →
        s.discriminator_column_name = some n →
        (List.lookup n inst.vals).isSome = true →
          Model.save s inst =
            .ok (Model.reset_after_dml s (Model.validate s.columns (setattrV inst n s.discriminator_value)),
                 Model.validate s.columns (setattrV inst n s.discriminator_value))
        ∧ getattrV (setattrV inst n s.discriminator_value) n = s.discriminator_value) := by
  constructor
  · intro h1 h2
    simp [Model.save, h1, h2]
  · intro n h1 h2 hd hsome
    constructor
    · simp [Model.save, h1, h2, Model.stamp_discriminator, hd]
    · exact getattrV_setattrV_same inst n s.discriminator_value hsome

/-- Witness for C5: the base schema is rejected and the concrete one is
stamped before validation and delegation. -/
theorem save_polymorphic_discipline_witness :
    Model.save polyBaseSchema polyC2Inst = .error .savePolymorphicBase
  ∧ getattrV (setattrV polyC2Inst "type" polyC2Schema.discriminator_value) "type" = some "b" := by
  have hbase := (save_polymorphic_discipline polyBaseSchema polyC2Inst).1 rfl rfl
  have hconc := (save_polymorphic_discipline polyC2Schema polyC2Inst).2 "type" rfl rfl rfl (by decide)
  exact ⟨hbase, hconc.2⟩

/-- Claim C3: constructing from raw data whose discriminator field
holds b against the polymorphic base B yields an instance whose
concrete class is C2 and whose persisted flag is true; a raw map with a
missing discriminator value fails; and a resolved class that is not a
subclass of the class queried against (here, querying C1 while the data
names C2) fails. -/
theorem construct_instance_polymorphic :
    (∀ i d, (construct_instance exHier exB [] [("id", some i), ("type", some "b"), ("data", d)]).map
        (fun r => (r.1, r.2.is_persisted)) = .ok ("C2", true))
  ∧ construct_instance exHier exB [] [("id", some "1"), ("data", some "d")] =
      .error .missingDiscriminatorValue
  ∧ construct_instance exHier exC1 [] [("id", some "1"), ("type", some "b"), ("data", some "d")] =
      .error (.notASubclass "C2" "C1") := by
  refine ⟨fun i d => rfl, rfl, rfl⟩

/-- Counterexample to claim C1 as stated: the update call whose value
map holds a valid field a followed by the unknown field zzz does fail
with the expected validation error, but the instance is mutated by the
failed call: field a was already assigned when the error was raised
(the loop of models.py lines 703 to 714 applies each entry before
checking the next one). -/
theorem update_mutates_before_failure_cex :
    Model.update sampleSchema [("a", some "x"), ("zzz", some "y")] sampleInst =
      .error (.noSuchColumn "zzz", cexMutatedInst)
  ∧ getattrV cexMutatedInst "a" = some "x"
  ∧ getattrV sampleInst "a" = none := ⟨rfl, rfl, rfl⟩

theorem apply_update_values_stops_at_offender (cols : List (String × Column))
    (pre : List (String × Val)) (k : String) (v : Val) (rest : List (String × Val))
    (hpre : ∀ q ∈ pre, ∃ c, List.lookup q.1 cols = some c ∧ c.is_primary_key = false)
    (hk : List.lookup k cols = none ∨ ∃ c, List.lookup k cols = some c ∧ c.is_primary_key = true) :
    ∀ inst, Model.apply_update_values cols (pre ++ (k, v) :: rest) inst =
      .error (update_loop_error cols k, pre.foldl (fun i q => setattrV i q.1 q.2) inst) := by
  induction pre with
  | nil =>
    intro inst
    rcases hk with hnone | ⟨c, hc, hpk⟩
    · simp [Model.apply_update_values, update_loop_error, hnone]
    · simp [Model.apply_update_values, update_loop_error, hc, hpk]
  | cons q pre ih =>
    intro inst
    obtain ⟨kq, vq⟩ := q
    obtain ⟨c, hc, hpk⟩ := hpre (kq, vq) (List.mem_cons_self _ _)
    have ihq := ih (fun r hr => hpre r (List.mem_cons_of_mem _ hr)) (setattrV inst kq vq)
    simp [Model.apply_update_values, hc, hpk, ihq]

/-- Claim C1 amended: an update whose value map contains a field name
not present in the schema or a primary-key field name fails with the
matching validation error at the first offending entry (no delegation
to the DML layer happens), but the entries preceding the offending one
have already been applied to the instance when the error is raised; in
particular the field values are unchanged only when the offending entry
is processed first. -/
theorem update_invalid_field_amended (s : ModelSchema) (inst : ModelInstance)
    (pre : List (String × Val)) (k : String) (v : Val) (rest : List (String × Val))
    (hpre : ∀ q ∈ pre, ∃ c, List.lookup q.1 s.columns = some c ∧ c.is_primary_key = false)
    (hk : List.lookup k s.columns = none ∨ ∃ c, List.lookup k s.columns = some c ∧ c.is_primary_key = true) :
    Model.update s (pre ++ (k, v) :: rest) inst =
      .error (update_loop_error s.columns k, pre.foldl (fun i q => setattrV i q.1 q.2) inst) := by
  unfold Model.update
  rw [apply_update_values_stops_at_offender s.columns pre k v rest hpre hk inst]

/-- Witness for the amended C1: a concrete update carrying one valid
entry and then a primary-key entry fails with the primary-key error,
with the valid entry already applied. -/
theorem update_invalid_field_amended_witness :
    Model.update sampleSchema [("a", some "x"), ("id", some "9")] sampleInst =
      .error (update_loop_error sampleSchema.columns "id",
              [(("a" : String), (some "x" : Val))].foldl (fun i q => setattrV i q.1 q.2) sampleInst) :=
  update_invalid_field_amended sampleSchema sampleInst [("a", some "x")] "id" (some "9") []
    (fun q hq => by
      rw [List.mem_singleton] at hq
      subst hq
      exact ⟨colA, rfl, rfl⟩)
    (Or.inr ⟨colId, rfl, rfl⟩)

/-- Counterexample to claim C7 as stated: for this 49-character class
name the derived table name is not the first-48-characters truncation
the specification sentence describes, because the slice `[-48:]` of
models.py line 535 keeps the last 48 characters: the code drops the
leading B while the spec reading drops the trailing a. -/
theorem table_name_truncation_cex :
    raw_column_family_name none none longClassName ≠ spec_table_name longClassName := by
  decide

/-- Claim C7 amended: with no explicit override the derived table name
is the camel-case-to-snake-case conversion of the class name truncated
to its last 48 characters (the tail is kept), lowercased, with leading
underscores stripped; and a concrete polymorphic subclass does not
derive its own name but takes the raw table name of its polymorphic
base verbatim. -/
theorem table_name_derivation_amended (cn bn : String) (bOv : Option String) :
    raw_column_family_name none none cn = spec_table_name_tail cn
  ∧ raw_column_family_name none (some (bOv, bn)) cn = raw_column_family_name bOv none bn := by
  constructor
  · show derived_table_name cn = spec_table_name_tail cn
    simp only [derived_table_name, spec_table_name_tail]
    have h := List.rtake_eq_reverse_take_reverse (l := ccase_chars cn.data) (n := 48)
    rw [List.rtake] at h
    rw [h]
  · cases bOv <;> rfl

/-!
Claim C2.
-/
theorem reset_after_dml_vals (s : ModelSchema) (x : ModelInstance) :
    (Model.reset_after_dml s x).vals = x.vals.map (fun p => (p.1, p.2.reset_previous_value)) := rfl

theorem get_changed_columns_reset (s : ModelSchema) (x : ModelInstance) :
    Model.get_changed_columns (Model.reset_after_dml s x) = [] := by
  unfold Model.get_changed_columns
  rw [reset_after_dml_vals]
  induction x.vals with
  | nil => rfl
  | cons hd tl ih => simp [ValueManager.reset_previous_value, ih]

theorem can_update_reset (s : ModelSchema) (x : ModelInstance) :
    Model.can_update s (Model.reset_after_dml s x) = true := by
  have hvals : (Model.reset_after_dml s x).vals = x.vals.map (fun p => (p.1, p.2.reset_previous_value)) := rfl
  have hp : (Model.reset_after_dml s x).is_persisted = true := rfl
  unfold Model.can_update
  rw [hp, hvals, Bool.true_and, List.all_eq_true]
  intro k _
  rw [lookup_map_snd]
  cases List.lookup k x.vals <;> simp [ValueManager.reset_previous_value]

theorem reset_vals_clean (s : ModelSchema) (x : ModelInstance) :
    ∀ p ∈ (Model.reset_after_dml s x).vals, p.2.changed = false ∧ p.2.previous_value = p.2.value := by
  intro p hp
  rw [reset_after_dml_vals] at hp
  obtain ⟨q, _, rfl⟩ := List.mem_map.mp hp
  exact ⟨rfl, rfl⟩

theorem can_update_setattrV (s : ModelSchema) (i : ModelInstance) (k : String) (v : Val)
    (h : Model.can_update s i = true) (hk : s.primary_keys.contains k = false) :
    Model.can_update s (setattrV i k v) = true := by
  have hkmem : k ∉ s.primary_keys := by simpa using hk
  unfold Model.can_update at h ⊢
  rw [Bool.and_eq_true] at h ⊢
  refine ⟨by rw [setattrV_is_persisted]; exact h.1, ?_⟩
  rw [List.all_eq_true]
  intro p hp
  have hpk : p ≠ k := fun hc => hkmem (hc ▸ hp)
  rw [lookup_setattrV_ne i k p v hpk]
  exact (List.all_eq_true.mp h.2) p hp

theorem can_update_foldl_setattr (s : ModelSchema) (ms : List (String × Val)) :
    ∀ i, Model.can_update s i = true →
      ms.all (fun q => !s.primary_keys.contains q.1) = true →
      Model.can_update s (ms.foldl (fun j q => setattrV j q.1 q.2) i) = true := by
  induction ms with
  | nil => intro i h _; exact h
  | cons q ms ih =>
    intro i h hall
    rw [List.all_cons, Bool.and_eq_true] at hall
    rw [List.foldl_cons]
    exact ih _ (can_update_setattrV s i q.1 q.2 h (by simpa using hall.1)) hall.2

/-- Claim C2: after a successful save, every value manager of the
result has its changed flag cleared and its previous value synchronized
to the current one, get_changed_columns is empty, the instance is
marked persisted, and _can_update returns true, and keeps returning
true under any further assignments that touch no primary-key column. -/
theorem save_resets_dirty_state (s : ModelSchema) (inst i2 sub : ModelInstance)
    (h : Model.save s inst = .ok (i2, sub)) :
    Model.get_changed_columns i2 = []
  ∧ i2.is_persisted = true
  ∧ (∀ p ∈ i2.vals, p.2.changed = false ∧ p.2.previous_value = p.2.value)
  ∧ Model.can_update s i2 = true
  ∧ (∀ ms : List (String × Val), ms.all (fun q => !s.primary_keys.contains q.1) = true →
        Model.can_update s (ms.foldl (fun j q => setattrV j q.1 q.2) i2) = true) := by
  unfold Model.save at h
  by_cases hb : (s.is_polymorphic && s.is_polymorphic_base) = true
  · rw [if_pos hb] at h
    exact absurd h (by simp)
  · rw [if_neg hb] at h
    simp only [Except.ok.injEq, Prod.mk.injEq] at h
    obtain ⟨h1, _⟩ := h
    subst h1
    refine ⟨get_changed_columns_reset s _, rfl, reset_vals_clean s _, can_update_reset s _, ?_⟩
    intro ms hms
    exact can_update_foldl_setattr s ms _ (can_update_reset s _) hms

/-- Witness for C2 on the concrete sample model. -/
theorem save_resets_dirty_state_witness :
    Model.save sampleSchema sampleInst = .ok (savedSample, savedSampleSub)
  ∧ Model.get_changed_columns savedSample = []
  ∧ savedSample.is_persisted = true
  ∧ Model.can_update sampleSchema savedSample = true := by
  have h := save_resets_dirty_state sampleSchema sampleInst savedSample savedSampleSub rfl
  exact ⟨rfl, h.1, h.2.1, h.2.2.2.1⟩

/-!
Characterization of the transform loop, toward claims C4 and C6.
-/
theorem pyInsert_not_mem {β : Type} (l : List (String × β)) (k : String) (v : β)
    (h : k ∉ l.map Prod.fst) : pyInsert l k v = l ++ [(k, v)] := by
  unfold pyInsert
  rw [if_neg]
  intro hc
  exact h (by simpa using hc)

theorem transform_columns_after_promotion (l : List (String × Column)) :
    ∀ (cd pk0 cdo pks : List (String × Column)),
      (∀ p ∈ l, p.2.partition_key = false) →
      (∀ p ∈ l, p.1 ∉ pk0.map Prod.fst) →
      (l.map Prod.fst).Nodup →
      transform_columns l true cd pk0 = .ok (cdo, pks) →
      pks = pk0 ++ l.filter (fun p => p.2.primary_key) := by
  induction l with
  | nil =>
    intro cd pk0 cdo pks _ _ _ h
    simp only [transform_columns, Except.ok.injEq, Prod.mk.injEq] at h
    simp [h.2]
  | cons hd tl ih =>
    intro cd pk0 cdo pks hnp hdisj hnd h
    obtain ⟨k, v⟩ := hd
    have hknot : k ∉ tl.map Prod.fst := (List.nodup_cons.mp hnd).1
    have hndtl : (tl.map Prod.fst).Nodup := (List.nodup_cons.mp hnd).2
    simp only [transform_columns, Bool.not_true, Bool.false_and] at h
    split at h
    · exact absurd h (by simp)
    split at h
    · exact absurd h (by simp)
    simp only [Bool.false_eq_true, if_false, Bool.true_or] at h
    cases hv : v.primary_key with
    | false =>
      rw [hv] at h
      simp only [Bool.false_eq_true, if_false] at h
      rw [List.filter_cons_of_neg (by simpa using hv)]
      exact ih (pyInsert cd k v) pk0 cdo pks (fun p hp => hnp p (List.mem_cons_of_mem _ hp))
        (fun p hp => hdisj p (List.mem_cons_of_mem _ hp)) hndtl h
    | true =>
      rw [hv] at h
      rw [if_pos rfl] at h
      rw [pyInsert_not_mem pk0 k v (hdisj (k, v) (List.mem_cons_self _ _))] at h
      have hres := ih (pyInsert cd k v) (pk0 ++ [(k, v)]) cdo pks
        (fun p hp => hnp p (List.mem_cons_of_mem _ hp))
        (fun p hp => by
          rw [List.map_append]
          intro hc
          rcases List.mem_append.mp hc with hc1 | hc2
          · exact hdisj p (List.mem_cons_of_mem _ hp) hc1
          · simp only [List.map_cons, List.map_nil, List.mem_singleton] at hc2
            exact hknot (hc2 ▸ List.mem_map_of_mem Prod.fst hp))
        hndtl h
      rw [List.filter_cons_of_pos (by simpa using hv), hres, List.append_assoc]
      rfl

theorem transform_columns_promotes_first (l : List (String × Column)) :
    ∀ (cd pk0 cdo pks : List (String × Column)) (n : String) (c : Column)
      (rest : List (String × Column)),
      (∀ p ∈ l, p.2.partition_key = false) →
      (∀ p ∈ l, p.1 ∉ pk0.map Prod.fst) →
      (l.map Prod.fst).Nodup →
      l.filter (fun p => p.2.primary_key) = (n, c) :: rest →
      transform_columns l false cd pk0 = .ok (cdo, pks) →
      pks = pk0 ++ (n, { c with partition_key := true }) :: rest := by
  induction l with
  | nil =>
    intro cd pk0 cdo pks n c rest _ _ _ hfil _
    exact absurd hfil (by simp)
  | cons hd tl ih =>
    intro cd pk0 cdo pks n c rest hnp hdisj hnd hfil h
    obtain ⟨k, v⟩ := hd
    have hknot : k ∉ tl.map Prod.fst := (List.nodup_cons.mp hnd).1
    have hndtl : (tl.map Prod.fst).Nodup := (List.nodup_cons.mp hnd).2
    simp only [transform_columns, Bool.not_false, Bool.true_and, Bool.false_or] at h
    split at h
    · exact absurd h (by simp)
    split at h
    · exact absurd h (by simp)
    cases hv : v.primary_key with
    | false =>
      simp only [hv, Bool.false_eq_true, if_false] at h
      rw [List.filter_cons_of_neg (by simpa using hv)] at hfil
      exact ih (pyInsert cd k v) pk0 cdo pks n c rest
        (fun p hp => hnp p (List.mem_cons_of_mem _ hp))
        (fun p hp => hdisj p (List.mem_cons_of_mem _ hp)) hndtl hfil h
    | true =>
      simp [hv] at h
      rw [List.filter_cons_of_pos (by simpa using hv)] at hfil
      injection hfil with hfil1 hfil2
      injection hfil1 with hn hc
      subst hn
      subst hc
      subst hfil2
      rw [pyInsert_not_mem pk0 k ({ v with primary_key := true, partition_key := true })
            (hdisj (k, v) (List.mem_cons_self _ _))] at h
      have hres := transform_columns_after_promotion tl
        (pyInsert cd k ({ v with primary_key := true, partition_key := true }))
        (pk0 ++ [(k, { v with primary_key := true, partition_key := true })]) cdo pks
        (fun p hp => hnp p (List.mem_cons_of_mem _ hp))
        (fun p hp => by
          rw [List.map_append]
          intro hcm
          rcases List.mem_append.mp hcm with hc1 | hc2
          · exact hdisj p (List.mem_cons_of_mem _ hp) hc1
          · simp only [List.map_cons, List.map_nil, List.mem_singleton] at hc2
            exact hknot (hc2 ▸ List.mem_map_of_mem Prod.fst hp))
        hndtl h
      rw [hv, hres, List.append_assoc]
      rfl

theorem resolve_schema_ok_parts (a : ClassAttrs) (s : ResolvedSchema)
    (h : resolve_schema a = .ok s) :
    ∃ cd pks,
      transform_columns (colDefs a) ((colDefs a).any (fun p => p.2.partition_key)) [] [] = .ok (cd, pks)
    ∧ s.primary_keys = pks
    ∧ s.partition_keys = pks.filter (fun p => p.2.partition_key)
    ∧ s.clustering_keys = pks.filter (fun p => !p.2.partition_key)
    ∧ (∀ n c, s.partition_keys = [(n, c)] → s.pk_shortcut = .scalar n)
    ∧ (s.partition_keys.length ≠ 1 → s.pk_shortcut = .composite (s.partition_keys.map Prod.fst)) := by
  simp only [resolve_schema] at h
  split at h
  · exact absurd h (by simp)
  split at h
  · exact absurd h (by simp)
  split at h
  · exact absurd h (by simp)
  split at h
  · exact absurd h (by simp)
  split at h
  · exact absurd h (by simp)
  split at h
  · exact absurd h (by simp)
  rename_i cd pks heq
  split at h
  · exact absurd h (by simp)
  split at h
  · exact absurd h (by simp)
  simp only [Except.ok.injEq] at h
  have hpart : s.partition_keys = List.filter (fun p => p.2.partition_key) pks :=
    (congrArg ResolvedSchema.partition_keys h).symm
  have hclus : s.clustering_keys = List.filter (fun p => !p.2.partition_key) pks :=
    (congrArg ResolvedSchema.clustering_keys h).symm
  have hprim : s.primary_keys = pks := (congrArg ResolvedSchema.primary_keys h).symm
  have hsh : s.pk_shortcut =
      (if hlen : (List.filter (fun p => p.2.partition_key) pks).length = 1 then
        PkShortcut.scalar ((List.filter (fun p => p.2.partition_key) pks).head (fun hnil => by
          rw [hnil] at hlen
          exact absurd hlen (by decide))).1
      else PkShortcut.composite (List.map Prod.fst (List.filter (fun p => p.2.partition_key) pks))) :=
    (congrArg ResolvedSchema.pk_shortcut h).symm
  refine ⟨cd, pks, heq, hprim, hpart, hclus, ?_, ?_⟩
  · intro n c hpc
    rw [hpart] at hpc
    have hlen1 : (List.filter (fun p => p.2.partition_key) pks).length = 1 := by
      rw [hpc]
      rfl
    rw [hsh, dif_pos hlen1]
    have hhead : ∀ (l : List (String × Column)) (hne : l ≠ []), l = [(n, c)] → (l.head hne).1 = n := by
      intro l hne hl
      subst hl
      rfl
    exact congrArg PkShortcut.scalar (hhead _ _ hpc)
  · intro hlen
    rw [hpart] at hlen
    rw [hsh, dif_neg hlen, hpart]

/-!
Claim C4.
-/
/-- Claim C4: for a schema that resolves successfully with no column
explicitly marked as partition key, exactly the first-declared
primary-key column is promoted to partition key (models.py lines 860 to
864) and the remaining primary keys become the clustering keys, in
declaration order and otherwise unchanged. -/
theorem first_primary_key_promoted (a : ClassAttrs) (s : ResolvedSchema)
    (h : resolve_schema a = .ok s)
    (hnopart : (colDefs a).all (fun p => !p.2.partition_key) = true)
    (hnd : ((colDefs a).map Prod.fst).Nodup)
    (n : String) (c : Column) (prims : List (String × Column))
    (hfirst : (colDefs a).filter (fun p => p.2.primary_key) = (n, c) :: prims) :
    s.partition_keys = [(n, { c with partition_key := true })]
  ∧ s.clustering_keys = prims := by
  obtain ⟨cd, pks, heq, _, hpart, hclus, _, _⟩ := resolve_schema_ok_parts a s h
  have hnp : ∀ p ∈ colDefs a, p.2.partition_key = false := by
    intro p hp
    simpa using List.all_eq_true.mp hnopart p hp
  have hany : ((colDefs a).any (fun p => p.2.partition_key)) = false := by
    rw [List.any_eq_false]
    intro p hp
    simp [hnp p hp]
  rw [hany] at heq
  have hpks := transform_columns_promotes_first (colDefs a) [] [] cd pks n c prims hnp
    (by intro p hp; simp) hnd hfirst heq
  rw [List.nil_append] at hpks
  have hprimsub : ∀ p ∈ prims, p.2.partition_key = false := by
    intro p hp
    refine hnp p (List.mem_of_mem_filter (p := fun p => p.2.primary_key) ?_)
    rw [hfirst]
    exact List.mem_cons_of_mem _ hp
  constructor
  · rw [hpart, hpks, List.filter_cons_of_pos rfl]
    have hnil : List.filter (fun p => p.2.partition_key) prims = [] := by
      rw [List.filter_eq_nil_iff]
      intro p hp
      simp [hprimsub p hp]
    rw [hnil]
  · rw [hclus, hpks, List.filter_cons_of_neg (fun hc => Bool.noConfusion hc)]
    rw [List.filter_eq_self.mpr]
    intro p hp
    simp [hprimsub p hp]

/-- Witness for C4: the first of the three declared primary keys is
promoted, the other two become clustering keys in order. -/
theorem first_primary_key_promoted_witness :
    resolve_schema threePkAttrs = .ok threePkSchema
  ∧ threePkSchema.partition_keys = [("k1", { colK1 with partition_key := true })]
  ∧ threePkSchema.clustering_keys = [("k2", colK2), ("k3", colK3)] := by
  have h := first_primary_key_promoted threePkAttrs threePkSchema rfl (by decide)
    (by decide) "k1" colK1 [("k2", colK2), ("k3", colK3)] rfl
  exact ⟨rfl, h.1, h.2⟩

/-!
Claim C6.
-/
theorem getattrV_foldl_setattr_not_mem (ps : List (String × Val)) :
    ∀ (inst : ModelInstance) (k : String), k ∉ ps.map Prod.fst →
      getattrV (ps.foldl (fun i q => setattrV i q.1 q.2) inst) k = getattrV inst k := by
  induction ps with
  | nil => intro inst k _; rfl
  | cons q ps ih =>
    intro inst k h
    rw [List.map_cons, List.mem_cons] at h
    push_neg at h
    rw [List.foldl_cons]
    rw [ih _ k h.2]
    exact getattrV_setattrV_ne inst q.1 k q.2 h.1

theorem pk_tuple_roundtrip (ns : List String) :
    ∀ (xs : List Val) (inst : ModelInstance), xs.length = ns.length → ns.Nodup →
      (∀ q ∈ ns, (List.lookup q inst.vals).isSome = true) →
      ns.map (getattrV ((ns.zip xs).foldl (fun i q => setattrV i q.1 q.2) inst)) = xs := by
  induction ns with
  | nil =>
    intro xs inst hlen _ _
    cases xs with
    | nil => rfl
    | cons x xs => exact absurd hlen (by simp)
  | cons n ns ih =>
    intro xs inst hlen hnd hpres
    cases xs with
    | nil => exact absurd hlen (by simp)
    | cons x xs =>
      rw [List.zip_cons_cons, List.foldl_cons, List.map_cons]
      have hn_notin : n ∉ ns := (List.nodup_cons.mp hnd).1
      have h1 : getattrV ((ns.zip xs).foldl (fun i q => setattrV i q.1 q.2) (setattrV inst n x)) n = x := by
        rw [getattrV_foldl_setattr_not_mem]
        · exact getattrV_setattrV_same inst n x (hpres n (List.mem_cons_self _ _))
        · intro hc
          obtain ⟨⟨a, b⟩, hab, hfst⟩ := List.mem_map.mp hc
          exact hn_notin (hfst ▸ (List.of_mem_zip hab).1)
      have h2 : ns.map (getattrV ((ns.zip xs).foldl (fun i q => setattrV i q.1 q.2) (setattrV inst n x))) = xs := by
        refine ih xs (setattrV inst n x) (by simpa using hlen) (List.nodup_cons.mp hnd).2 ?_
        intro q hq
        rw [isSome_lookup_setattrV]
        exact hpres q (List.mem_cons_of_mem _ hq)
      rw [h1, h2]

/-- Claim C6: for a resolved schema with exactly one partition key the
pk shortcut is that column itself, reading it yields the scalar column
value and assigning through it writes that column; with a composite
partition key the shortcut is the tuple accessor over the partition-key
names in declaration order: reading yields the value tuple in that
order and assigning a matching-length tuple writes each element to the
corresponding column in order. -/
theorem pk_shortcut_behavior (a : ClassAttrs) (s : ResolvedSchema)
    (h : resolve_schema a = .ok s) :
    (∀ n c, s.partition_keys = [(n, c)] →
        s.pk_shortcut = .scalar n
      ∧ (∀ inst, pk_get (.scalar n) inst = .single (getattrV inst n))
      ∧ (∀ inst v, (List.lookup n inst.vals).isSome = true →
            getattrV (pk_set (.scalar n) inst (.single v)) n = v))
  ∧ (2 ≤ s.partition_keys.length →
        s.pk_shortcut = .composite (s.partition_keys.map Prod.fst)
      ∧ (∀ inst, pk_get (.composite (s.partition_keys.map Prod.fst)) inst
            = .tuple ((s.partition_keys.map Prod.fst).map (getattrV inst)))
      ∧ (∀ (inst : ModelInstance) (xs : List Val),
            xs.length = (s.partition_keys.map Prod.fst).length →
            (s.partition_keys.map Prod.fst).Nodup →
            (∀ q ∈ s.partition_keys.map Prod.fst, (List.lookup q inst.vals).isSome = true) →
            pk_get (.composite (s.partition_keys.map Prod.fst))
              (pk_set (.composite (s.partition_keys.map Prod.fst)) inst (.tuple xs)) = .tuple xs)) := by
  obtain ⟨cd, pks, _, _, _, _, hscalar, hcomp⟩ := resolve_schema_ok_parts a s h
  constructor
  · intro n c hpc
    refine ⟨hscalar n c hpc, fun inst => rfl, fun inst v hv => ?_⟩
    exact getattrV_setattrV_same inst n v hv
  · intro hlen
    have hne1 : s.partition_keys.length ≠ 1 := by omega
    refine ⟨hcomp hne1, fun inst => rfl, fun inst xs hxs hnd hpres => ?_⟩
    show PkValue.tuple ((s.partition_keys.map Prod.fst).map
        (getattrV (((s.partition_keys.map Prod.fst).zip xs).foldl (fun i q => setattrV i q.1 q.2) inst))) =
      PkValue.tuple xs
    rw [pk_tuple_roundtrip (s.partition_keys.map Prod.fst) xs inst (by simpa using hxs) hnd hpres]

/-- Witness for C6: on the composite-key model the shortcut is the
tuple accessor and a tuple assignment round-trips through the two
underlying partition-key columns. -/
theorem pk_shortcut_behavior_witness :
    twoPartSchema.pk_shortcut = .composite (twoPartSchema.partition_keys.map Prod.fst)
  ∧ twoPartSchema.partition_keys.map Prod.fst = ["p1", "p2"]
  ∧ pk_get (.composite (twoPartSchema.partition_keys.map Prod.fst))
      (pk_set (.composite (twoPartSchema.partition_keys.map Prod.fst)) twoPartInst
        (.tuple [some "x", some "y"])) = .tuple [some "x", some "y"] := by
  have h := (pk_shortcut_behavior twoPartAttrs twoPartSchema rfl).2 (by decide)
  refine ⟨h.1, by decide, ?_⟩
  exact h.2.2 twoPartInst [some "x", some "y"] (by decide) (by decide) (by decide)
